import Mathlib

/-!
# Verification of the EMV Static Data Authentication engine (ccid-utils, src/emv_sda.c)

A shallow embedding of the SDA verification pipeline from `src/emv_sda.c`.
Byte buffers are `List Nat` (each element a byte value), `size_t` arithmetic
is modelled explicitly modulo `2^64`, and every pointer dereference into a
buffer goes through `readByte`/`readRange`, which report an out-of-bounds
access as a distinguished outcome (the C program's undefined behaviour).

The external collaborators (SHA-1, the RSA raw public transform, the CA key
callbacks) are parameters of the embedded functions, exactly as they are
external libraries/callbacks in the C code.
-/

namespace EmvSda

/-- Model of `SHA_DIGEST_LENGTH` from the OpenSSL header: SHA-1 digests are 20 bytes. -/
def SHA_DIGEST_LENGTH : Nat := 20

/-- The modulus of `size_t` arithmetic (64-bit platform). -/
def SIZE : Nat := 2 ^ 64

/-- C `size_t` subtraction `a - b`, wrapping modulo `2^64`. -/
def csub (a b : Nat) : Nat := (a % SIZE + (SIZE - b % SIZE)) % SIZE

/-- Failure discriminants of the SDA engine.  The C code returns `0`/`NULL`
on every failure; the discriminant records which failing branch (each with
its own diagnostic `printf`) produced the failure, following the error
taxonomy of the design spec. -/
inductive SDAErr where
  | DataMissing
  | KeyNotFound
  | LengthMismatch
  | BadFormat
  | BadTrailer
  | HashMismatch
  | UnsupportedMethod
  | RecoveryFailed
  deriving DecidableEq, Repr

/-- Outcome of running a piece of the C code: a value, a clean failure with
a discriminant, or an out-of-bounds buffer access (undefined behaviour). -/
inductive Outcome (α : Type) where
  | ok : α → Outcome α
  | err : SDAErr → Outcome α
  | oob : Outcome α
  deriving DecidableEq, Repr

/-- Sequencing of outcomes: propagate failures and undefined behaviour. -/
def Outcome.bind {α β : Type} (o : Outcome α) (f : α → Outcome β) :
    Outcome β :=
  match o with
  | .ok a => f a
  | .err e => .err e
  | .oob => .oob

@[simp] lemma Outcome.bind_ok {α β : Type} (a : α) (f : α → Outcome β) :
    (Outcome.ok a).bind f = f a := rfl

@[simp] lemma Outcome.bind_err {α β : Type} (e : SDAErr) (f : α → Outcome β) :
    (Outcome.err e).bind f = .err e := rfl

@[simp] lemma Outcome.bind_oob {α β : Type} (f : α → Outcome β) :
    (Outcome.oob).bind f = .oob := rfl

/-- Read one byte `b[i]`; out of bounds is undefined behaviour. -/
def readByte (b : List Nat) (i : Nat) : Outcome Nat :=
  if i < b.length then .ok (b.getD i 0) else .oob

/-- Read `n` consecutive bytes starting at `b + off` (a `memcpy`/`memcmp`
source range); any access past the end is undefined behaviour. -/
def readRange (b : List Nat) (off n : Nat) : Outcome (List Nat) :=
  if off + n ≤ b.length then .ok ((b.drop off).take n) else .oob

/-- An RSA public key as built by `get_ca_key`/`make_issuer_pk`: the byte
strings handed to `BN_bin2bn` for the modulus `n` and public exponent `e`. -/
structure RSAKey where
  n : List Nat
  e : List Nat
  deriving DecidableEq, Repr

/-- The raw RSA public transform `RSA_public_encrypt(..., RSA_NO_PADDING)`:
external to this code.  `none` models a negative return value; `some out`
models success with `out.length` bytes written. -/
def RSATransform : Type := RSAKey → List Nat → Option (List Nat)

/-- The external hash primitive `SHA1` (message bytes to digest bytes). -/
def HashFn : Type := List Nat → List Nat

/-- Model of `struct sda_req` from `emv_sda.c`: the five data elements gathered for
one authentication attempt.  In C the four buffers are borrowed pointers
into tag-store records; the embedding threads their current contents. -/
structure SDAReq where
  ca_pk_idx : Nat
  pk_cert : List Nat
  pk_r : List Nat
  pk_exp : List Nat
  ssa_data : List Nat
  deriving DecidableEq, Repr

/-- Model of `emsa_pss_decode` from `emv_sda.c` lines 25–47.  Computes
`md = SHA1(msg)`, fails (`BadTrailer`) unless `em[em_len-1] == 0xbc`, sets
`mdb_len = em_len - SHA_DIGEST_LENGTH - 1` in `size_t` arithmetic, and
fails (`HashMismatch`) unless `memcmp(em + mdb_len, md, 20)` is zero. -/
def emsa_pss_decode (hash : HashFn) (msg em : List Nat) : Outcome Unit :=
  let md := hash msg
  (readByte em (csub em.length 1)).bind fun t =>
    if t ≠ 0xbc then .err .BadTrailer
    else
      let mdb_len := csub em.length (SHA_DIGEST_LENGTH + 1)
      (readRange em mdb_len SHA_DIGEST_LENGTH).bind fun seg =>
        if seg = md then .ok () else .err .HashMismatch

/-- Model of `recover` from `emv_sda.c` lines 133–152.  Applies the raw RSA public
transform to a scratch buffer; only if the transform succeeds and its
output length equals `len` is the caller-visible buffer overwritten.
Returns the success flag together with the caller-visible buffer contents
after the call. -/
def recover (transform : RSATransform) (key : RSAKey) (buf : List Nat) :
    Bool × List Nat :=
  match transform key buf with
  | none => (false, buf)
  | some out => if out.length = buf.length then (true, out) else (false, buf)

/-- Model of `check_pk_cert` from `emv_sda.c` lines 154–195, run on a request whose
`pk_cert` already holds the recovered certificate.  Header checks on bytes
0, 1 and 11, then builds the message
`pk_cert[1 .. 1 + (pk_cert_len - 22))` ++ `pk_r` ++ `pk_exp` and runs
`emsa_pss_decode` against the full recovered certificate. -/
def check_pk_cert (hash : HashFn) (req : SDAReq) : Outcome Unit :=
  (readByte req.pk_cert 0).bind fun b0 =>
    if b0 ≠ 0x6a then .err .BadFormat
    else
      (readByte req.pk_cert 1).bind fun b1 =>
        if b1 ≠ 0x02 then .err .BadFormat
        else
          (readByte req.pk_cert 11).bind fun b11 =>
            if b11 ≠ 0x01 then .err .BadFormat
            else
              (readRange req.pk_cert 1
                  (csub req.pk_cert.length (SHA_DIGEST_LENGTH + 2))).bind
                fun part =>
                  emsa_pss_decode hash (part ++ req.pk_r ++ req.pk_exp)
                    req.pk_cert

/-- Model of `make_issuer_pk` from `emv_sda.c` lines 197–230.  Allocates a scratch
buffer of `pk_cert_len` bytes (initial contents `junk`, uninitialised
heap memory), copies `pk_cert[15 .. 15 + (pk_cert_len - 36))` and then
`pk_r` into it, and hands the *whole* `pk_cert_len`-byte buffer to
`BN_bin2bn` as the issuer modulus; the exponent bytes are `pk_exp`.
A `memcpy` past the end of either buffer is undefined behaviour. -/
def make_issuer_pk (junk : List Nat) (req : SDAReq) : Outcome RSAKey :=
  let len := req.pk_cert.length
  let kb_len := csub len (15 + 21)
  (readRange req.pk_cert 15 kb_len).bind fun kb =>
    if kb_len + req.pk_r.length ≤ len then
      let tmp0 := (junk ++ List.replicate len 0).take len
      .ok { n := (kb ++ req.pk_r ++ tmp0.drop (kb_len + req.pk_r.length)).take len,
            e := req.pk_exp }
    else .oob

/-- Model of `get_issuer_pk` from `emv_sda.c` lines 232–252.  Checks
`pk_cert_len == key_len`, recovers the certificate **in place** (the
returned request carries the post-call contents of the `pk_cert` buffer,
which in C is the tag-store record itself), validates it, and builds the
issuer key. -/
def get_issuer_pk (transform : RSATransform) (hash : HashFn)
    (junk : List Nat) (req : SDAReq) (ca_key : RSAKey) (key_len : Nat) :
    Outcome RSAKey × SDAReq :=
  if req.pk_cert.length ≠ key_len then (.err .LengthMismatch, req)
  else
    match recover transform ca_key req.pk_cert with
    | (false, _) => (.err .RecoveryFailed, req)
    | (true, rec) =>
      let req' := { req with pk_cert := rec }
      ((check_pk_cert hash req').bind fun _ => make_issuer_pk junk req', req')

/-- Model of `check_ssa` from `emv_sda.c` lines 254–296.  Builds the message
`ptr[1 .. 1 + (len - 22))` ++ (each record's bytes, in list order) ++
the first two AIP bytes, and runs `emsa_pss_decode` against the
recovered block `ptr`. -/
def check_ssa (hash : HashFn) (ptr : List Nat) (rec : List (List Nat))
    (aip : List Nat) : Outcome Unit :=
  (readRange ptr 1 (csub ptr.length (SHA_DIGEST_LENGTH + 2))).bind fun cf =>
    (readRange aip 0 2).bind fun aipb =>
      emsa_pss_decode hash (cf ++ rec.flatten ++ aipb) ptr

/-- Model of `verify_ssa_data` from `emv_sda.c` lines 298–324.  Recovers the signed
static data **in place** (the returned request carries the post-call
contents of the `ssa_data` buffer), checks header bytes 0, 1, 2 of the
recovered block, then runs `check_ssa`. -/
def verify_ssa_data (transform : RSATransform) (hash : HashFn)
    (rec : List (List Nat)) (req : SDAReq) (iss_key : RSAKey)
    (aip : List Nat) : Outcome Unit × SDAReq :=
  match recover transform iss_key req.ssa_data with
  | (false, _) => (.err .RecoveryFailed, req)
  | (true, recd) =>
    let req' := { req with ssa_data := recd }
    ((readByte req'.ssa_data 0).bind fun b0 =>
      if b0 ≠ 0x6a then .err .BadFormat
      else
        (readByte req'.ssa_data 1).bind fun b1 =>
          if b1 ≠ 0x03 then .err .BadFormat
          else
            (readByte req'.ssa_data 2).bind fun b2 =>
              if b2 ≠ 0x01 then .err .BadFormat
              else check_ssa hash req'.ssa_data rec aip, req')

/-- Modelled from the spec: `EMV_AIP_SDA` is the SDA-support bit flag that
`emv_authenticate_static_data` tests against `aip[0]`; the header defining
its value is not part of the sources, only that it is one fixed bit of the
first AIP byte.  None of the verified properties depend on its value. -/
def EMV_AIP_SDA : Nat := 0x40

/-- The fields of `struct _emv` consumed or produced by the SDA engine:
the AIP bytes, the tag-store records the five SDA data elements resolve
to (with `none` for a missing record or `NULL` data pointer, and the CA
public key index already passed through `emv_data_int`, negative on
failure), the ordered SDA-relevant record list `e_db.db_sda`, and the
output slots `e_ca_pk`, `e_iss_pk`, `e_sda_ok`. -/
structure EmvCtx where
  e_aip : List Nat
  ca_pk_idx_int : Int
  tag_pk_cert : Option (List Nat)
  tag_pk_r : Option (List Nat)
  tag_pk_exp : Option (List Nat)
  tag_ssa : Option (List Nat)
  db_sda : List (List Nat)
  e_ca_pk : Option RSAKey
  e_iss_pk : Option RSAKey
  e_sda_ok : Bool
  deriving DecidableEq, Repr

/-- Model of `get_required_data` from `emv_sda.c` lines 49–94: fails if the CA PK
index does not decode to a non-negative integer or any of the four byte
records is missing; otherwise builds the `sda_req` views. -/
def get_required_data (e : EmvCtx) : Option SDAReq :=
  if e.ca_pk_idx_int < 0 then none
  else
    match e.tag_pk_cert, e.tag_pk_r, e.tag_pk_exp, e.tag_ssa with
    | some c, some r, some x, some s =>
      some { ca_pk_idx := e.ca_pk_idx_int.toNat, pk_cert := c, pk_r := r,
             pk_exp := x, ssa_data := s }
    | _, _, _, _ => none

/-- The CA key provider callbacks `emv_mod_cb_t`/`emv_exp_cb_t` (with the
`priv` argument folded in): index to modulus/exponent bytes, `NULL` on
absence. -/
def KeyCb : Type := Nat → Option (List Nat)

/-- Model of `get_ca_key` from `emv_sda.c` lines 96–131: queries the modulus and
exponent callbacks, builds the RSA key, and reports the modulus byte
length as `key_len`. -/
def get_ca_key (idx : Nat) (modcb expcb : KeyCb) : Option (RSAKey × Nat) :=
  match modcb idx with
  | none => none
  | some m =>
    match expcb idx with
    | none => none
    | some ex => some ({ n := m, e := ex }, m.length)

/-- Model of `emv_authenticate_static_data` from `emv_sda.c` lines 326–361.
Checks the SDA bit of `aip[0]`, gathers the required data, obtains the CA
key (storing it in `e_ca_pk`), runs the issuer-certificate stage (storing
its result in `e_iss_pk` and writing the in-place-recovered certificate
back through the aliased tag-store record), runs the SSA stage (likewise
writing back the recovered SSA data), and sets `e_sda_ok` only on full
success.  Returns the result together with the final context. -/
def emv_authenticate_static_data (transform : RSATransform) (hash : HashFn)
    (junk : List Nat) (modcb expcb : KeyCb) (e : EmvCtx) :
    Outcome Unit × EmvCtx :=
  match readByte e.e_aip 0 with
  | .oob => (.oob, e)
  | .err er => (.err er, e)
  | .ok a0 =>
    if a0 &&& EMV_AIP_SDA = 0 then (.err .UnsupportedMethod, e)
    else
      match get_required_data e with
      | none => (.err .DataMissing, e)
      | some req =>
        match get_ca_key req.ca_pk_idx modcb expcb with
        | none => (.err .KeyNotFound, e)
        | some (ca_key, ca_key_len) =>
          let e1 := { e with e_ca_pk := some ca_key }
          match get_issuer_pk transform hash junk req ca_key ca_key_len with
          | (.oob, req') =>
            (.oob, { e1 with tag_pk_cert := some req'.pk_cert,
                             e_iss_pk := none })
          | (.err er, req') =>
            (.err er, { e1 with tag_pk_cert := some req'.pk_cert,
                                e_iss_pk := none })
          | (.ok iss, req') =>
            let e2 := { e1 with tag_pk_cert := some req'.pk_cert,
                                e_iss_pk := some iss }
            match verify_ssa_data transform hash e.db_sda req' iss e.e_aip with
            | (.oob, req'') =>
              (.oob, { e2 with tag_ssa := some req''.ssa_data })
            | (.err er, req'') =>
              (.err er, { e2 with tag_ssa := some req''.ssa_data })
            | (.ok _, req'') =>
              (.ok (), { e2 with tag_ssa := some req''.ssa_data,
                                 e_sda_ok := true })

/-- Model of `emv_sda_ok` from `emv_sda.c` lines 363–366: returns the stored flag. -/
def emv_sda_ok (e : EmvCtx) : Bool := e.e_sda_ok

/-! ## Concrete fixtures

Small concrete instantiations of the external collaborators and of card
data, used to evaluate the embedded code on explicit inputs. -/

/-- A concrete stand-in for the external hash: constant 20-byte digest. -/
def hashZ : HashFn := fun _ => List.replicate 20 0

/-- The identity RSA transform: length-preserving and always succeeding. -/
def idT : RSATransform := fun _ b => some b

/-- A 36-byte issuer certificate that is a fixed point of `idT` recovery
and passes `check_pk_cert` under `hashZ`: header bytes `6a 02`, hash
algorithm byte `01` at offset 11, all-zero digest at offsets 15–34, and
trailer `bc` at offset 35. -/
def goodCert : List Nat :=
  [0x6a, 0x02, 0, 0, 0, 0, 0, 0, 0, 0, 0, 0x01, 0, 0, 0] ++
    List.replicate 20 0 ++ [0xbc]

/-- A 24-byte SSA block that passes `verify_ssa_data` under `hashZ` after
`idT` recovery: header `6a 03 01`, all-zero digest, trailer `bc`. -/
def goodSsa : List Nat :=
  [0x6a, 0x03, 0x01] ++ List.replicate 20 0 ++ [0xbc]

/-- The `sda_req` assembled from the fixture context `ctx0`. -/
def req0 : SDAReq :=
  { ca_pk_idx := 0, pk_cert := goodCert, pk_r := [], pk_exp := [3],
    ssa_data := goodSsa }

/-- CA key provider returning a 36-byte modulus. -/
def mod36 : KeyCb := fun _ => some (List.replicate 36 1)

/-- CA key provider returning a 35-byte modulus (length mismatch with the
36-byte fixture certificate). -/
def mod35 : KeyCb := fun _ => some (List.replicate 35 1)

/-- CA key provider returning a 2-byte modulus. -/
def mod2 : KeyCb := fun _ => some [1, 1]

/-- CA exponent provider returning the byte `3`. -/
def exp3 : KeyCb := fun _ => some [3]

/-- All-zero contents for the uninitialised scratch allocation. -/
def junk0 : List Nat := List.replicate 36 0

/-- A fixture card context on which the whole SDA pipeline succeeds with
`idT`/`hashZ`/`mod36`/`exp3`. -/
def ctx0 : EmvCtx :=
  { e_aip := [0x40, 0], ca_pk_idx_int := 0, tag_pk_cert := some goodCert,
    tag_pk_r := some [], tag_pk_exp := some [3], tag_ssa := some goodSsa,
    db_sda := [[0x5a, 1], [2]], e_ca_pk := none, e_iss_pk := none,
    e_sda_ok := false }

/-- A context whose stored issuer certificate differs from its recovered
form, so a successful recovery visibly rewrites the tag-store record. -/
def ctxC2 : EmvCtx := { ctx0 with tag_pk_cert := some (List.replicate 36 5) }

/-- A transform that recovers the `ctxC2` certificate record to `goodCert`
and acts as the identity elsewhere. -/
def tC2 : RSATransform :=
  fun _ b => if b = List.replicate 36 5 then some goodCert else some b

/-- A context whose issuer certificate is only 2 bytes long, matching a
2-byte CA modulus: every explicit check of the code passes, yet
validation reads past the end of the recovered certificate. -/
def ctxC9 : EmvCtx := { ctx0 with tag_pk_cert := some [0x6a, 0x02] }

/-- A context whose SSA data fails validation (bad signature byte) while
the issuer-certificate stage succeeds. -/
def ctx10 : EmvCtx := { ctx0 with tag_ssa := some [0] }

/-- The request of the `C3` failing input: a validated 36-byte certificate
with an empty PK remainder, so the key-body slice `[15, 36-21)` is empty
and the scratch buffer handed to `BN_bin2bn` is never written. -/
def reqC3 : SDAReq :=
  { ca_pk_idx := 0, pk_cert := goodCert, pk_r := [], pk_exp := [3],
    ssa_data := [] }

/-- A request whose certificate is 2 bytes with valid leading header
bytes, matching a 2-byte CA modulus. -/
def req9 : SDAReq :=
  { ca_pk_idx := 0, pk_cert := [0x6a, 0x02], pk_r := [], pk_exp := [3],
    ssa_data := [] }

/-- The request assembled from `ctx10` (bad 1-byte SSA data). -/
def req10 : SDAReq :=
  { ca_pk_idx := 0, pk_cert := goodCert, pk_r := [], pk_exp := [3],
    ssa_data := [0] }

/-- The request assembled from `ctxC2` (certificate record whose stored
bytes differ from their recovered form). -/
def reqC2 : SDAReq :=
  { ca_pk_idx := 0, pk_cert := List.replicate 36 5, pk_r := [], pk_exp := [3],
    ssa_data := goodSsa }

/-- The CA key produced by `mod36`/`exp3`. -/
def caK36 : RSAKey := { n := List.replicate 36 1, e := [3] }

/-! ## Arithmetic and access helpers -/

lemma SIZE_eq : SIZE = 18446744073709551616 := by norm_num [SIZE]

/-- In-range `size_t` subtraction is ordinary subtraction. -/
lemma csub_of_le {a b : Nat} (hb : b ≤ a) (ha : a < SIZE) : csub a b = a - b := by
  have hs := SIZE_eq
  simp only [csub, hs] at *
  omega

/-- Underflowing `size_t` subtraction wraps to the top of the range. -/
lemma csub_of_lt {a b : Nat} (hab : a < b) (hb : b < SIZE) :
    csub a b = SIZE - b + a := by
  have hs := SIZE_eq
  simp only [csub, hs] at *
  omega

lemma readByte_ok {b : List Nat} {i : Nat} (h : i < b.length) :
    readByte b i = .ok (b.getD i 0) := by
  simp [readByte, h]

lemma readByte_oob {b : List Nat} {i : Nat} (h : ¬ i < b.length) :
    readByte b i = .oob := by
  simp [readByte, h]

lemma readRange_ok {b : List Nat} {off n : Nat} (h : off + n ≤ b.length) :
    readRange b off n = .ok ((b.drop off).take n) := by
  simp [readRange, h]

lemma readRange_oob {b : List Nat} {off n : Nat} (h : ¬ off + n ≤ b.length) :
    readRange b off n = .oob := by
  simp [readRange, h]

/-- A `getD` that returns a value other than the default is in bounds. -/
lemma lt_length_of_getD {l : List Nat} {i v : Nat} (h : l.getD i 0 = v)
    (hv : v ≠ 0) : i < l.length := by
  by_contra hc
  rw [List.getD_eq_default _ _ (by omega)] at h
  exact hv h.symm

/-! ## Behaviour of the padding/trailer decoder -/

/-- On a block long enough for all its accesses, `emsa_pss_decode` is
exactly the trailer test followed by the digest comparison at offset
`em_len - 21`. -/
lemma emsa_pss_decode_eq (hash : HashFn) (msg em : List Nat)
    (h21 : SHA_DIGEST_LENGTH + 1 ≤ em.length) (hsz : em.length < SIZE) :
    emsa_pss_decode hash msg em =
      if em.getD (em.length - 1) 0 = 0xbc then
        (if (em.drop (em.length - (SHA_DIGEST_LENGTH + 1))).take
            SHA_DIGEST_LENGTH = hash msg
         then .ok () else .err .HashMismatch)
      else .err .BadTrailer := by
  have h21' : 21 ≤ em.length := by simpa [SHA_DIGEST_LENGTH] using h21
  have e1 : csub em.length 1 = em.length - 1 := csub_of_le (by omega) hsz
  have e21 : csub em.length (SHA_DIGEST_LENGTH + 1) = em.length - 21 := by
    simpa [SHA_DIGEST_LENGTH] using csub_of_le (a := em.length) (b := 21)
      (by omega) hsz
  simp only [emsa_pss_decode]
  rw [e1, e21, readByte_ok (show em.length - 1 < em.length by omega),
    Outcome.bind_ok,
    readRange_ok (show em.length - 21 + SHA_DIGEST_LENGTH ≤ em.length by
      simp only [SHA_DIGEST_LENGTH]; omega),
    Outcome.bind_ok]
  by_cases hbc : em.getD (em.length - 1) 0 = 0xbc
  · rw [if_neg (not_not_intro hbc), if_pos hbc]
    norm_num [SHA_DIGEST_LENGTH]
  · rw [if_pos hbc, if_neg hbc]

/-- With the trailer present but the block too short for the digest window,
the decoder's `memcmp` reads out of bounds. -/
lemma emsa_pss_decode_oob (hash : HashFn) (msg em : List Nat)
    (hbc : em.getD (em.length - 1) 0 = 0xbc)
    (hshort : em.length < SHA_DIGEST_LENGTH + 1) :
    emsa_pss_decode hash msg em = .oob := by
  have h1' : em.length - 1 < em.length :=
    lt_length_of_getD (i := em.length - 1) hbc (by norm_num)
  have h1 : 1 ≤ em.length := by omega
  have hs : em.length < SIZE := by
    have := SIZE_eq
    simp only [SHA_DIGEST_LENGTH] at hshort
    omega
  have e1 : csub em.length 1 = em.length - 1 := csub_of_le (by omega) hs
  have e21 : csub em.length (SHA_DIGEST_LENGTH + 1) =
      SIZE - (SHA_DIGEST_LENGTH + 1) + em.length := by
    refine csub_of_lt hshort ?_
    rw [SIZE_eq]; norm_num [SHA_DIGEST_LENGTH]
  have hrr : ¬ (SIZE - (SHA_DIGEST_LENGTH + 1) + em.length +
      SHA_DIGEST_LENGTH ≤ em.length) := by
    rw [SIZE_eq]
    simp only [SHA_DIGEST_LENGTH] at *
    omega
  simp only [emsa_pss_decode]
  rw [e1, e21, readByte_ok h1', Outcome.bind_ok,
    if_neg (not_not_intro hbc), readRange_oob hrr, Outcome.bind_oob]

/-! ## Behaviour of the issuer-certificate validator -/

/-- With the three header bytes valid and the certificate long enough,
`check_pk_cert` is exactly the decoder run on the message
`cert[1 .. 1 + (len - 22))` ++ `pk_r` ++ `pk_exp` against the full
certificate. -/
lemma check_pk_cert_eq (hash : HashFn) (req : SDAReq)
    (hlen : SHA_DIGEST_LENGTH + 2 ≤ req.pk_cert.length)
    (hsz : req.pk_cert.length < SIZE)
    (hb0 : req.pk_cert.getD 0 0 = 0x6a)
    (hb1 : req.pk_cert.getD 1 0 = 0x02)
    (hb11 : req.pk_cert.getD 11 0 = 0x01) :
    check_pk_cert hash req =
      emsa_pss_decode hash
        ((req.pk_cert.drop 1).take (req.pk_cert.length - (SHA_DIGEST_LENGTH + 2))
          ++ req.pk_r ++ req.pk_exp) req.pk_cert := by
  have hlen' : 22 ≤ req.pk_cert.length := by
    simpa [SHA_DIGEST_LENGTH] using hlen
  have e22 : csub req.pk_cert.length (SHA_DIGEST_LENGTH + 2) =
      req.pk_cert.length - 22 := by
    simpa [SHA_DIGEST_LENGTH] using
      csub_of_le (a := req.pk_cert.length) (b := 22) (by omega) hsz
  simp only [check_pk_cert]
  rw [readByte_ok (show 0 < req.pk_cert.length by omega), Outcome.bind_ok,
    if_neg (not_not_intro hb0),
    readByte_ok (show 1 < req.pk_cert.length by omega), Outcome.bind_ok,
    if_neg (not_not_intro hb1),
    readByte_ok (show 11 < req.pk_cert.length by omega), Outcome.bind_ok,
    if_neg (not_not_intro hb11), e22,
    readRange_ok (show 1 + (req.pk_cert.length - 22) ≤ req.pk_cert.length by
      omega),
    Outcome.bind_ok]
  norm_num [SHA_DIGEST_LENGTH]

/-- If any of the three header bytes is wrong (all header reads being in
bounds), `check_pk_cert` fails with `BadFormat`. -/
lemma check_pk_cert_badformat (hash : HashFn) (req : SDAReq)
    (hlen : 12 ≤ req.pk_cert.length)
    (hbad : ¬ (req.pk_cert.getD 0 0 = 0x6a ∧ req.pk_cert.getD 1 0 = 0x02 ∧
      req.pk_cert.getD 11 0 = 0x01)) :
    check_pk_cert hash req = .err .BadFormat := by
  simp only [check_pk_cert]
  rw [readByte_ok (show 0 < req.pk_cert.length by omega), Outcome.bind_ok]
  by_cases h0 : req.pk_cert.getD 0 0 = 0x6a
  · rw [if_neg (not_not_intro h0),
      readByte_ok (show 1 < req.pk_cert.length by omega), Outcome.bind_ok]
    by_cases h1 : req.pk_cert.getD 1 0 = 0x02
    · rw [if_neg (not_not_intro h1),
        readByte_ok (show 11 < req.pk_cert.length by omega), Outcome.bind_ok]
      by_cases h11 : req.pk_cert.getD 11 0 = 0x01
      · exact absurd ⟨h0, h1, h11⟩ hbad
      · rw [if_pos h11]
    · rw [if_pos h1]
  · rw [if_pos h0]

/-- A certificate shorter than 22 bytes whose existing header bytes pass
their checks drives `check_pk_cert` into an out-of-bounds access: either
the read of byte 11 itself, or the message `memcpy` whose length
underflowed. -/
lemma check_pk_cert_oob (hash : HashFn) (req : SDAReq)
    (hshort : req.pk_cert.length < SHA_DIGEST_LENGTH + 2)
    (hb0 : req.pk_cert.getD 0 0 = 0x6a)
    (hb1 : req.pk_cert.getD 1 0 = 0x02)
    (hb11 : 12 ≤ req.pk_cert.length → req.pk_cert.getD 11 0 = 0x01) :
    check_pk_cert hash req = .oob := by
  have h0 : 0 < req.pk_cert.length := lt_length_of_getD hb0 (by norm_num)
  have h1 : 1 < req.pk_cert.length := lt_length_of_getD hb1 (by norm_num)
  have hshort' : req.pk_cert.length < 22 := by
    simpa [SHA_DIGEST_LENGTH] using hshort
  by_cases h12 : 12 ≤ req.pk_cert.length
  · have hsz : req.pk_cert.length < SIZE := by
      have := SIZE_eq; omega
    have e22 : csub req.pk_cert.length (SHA_DIGEST_LENGTH + 2) =
        SIZE - (SHA_DIGEST_LENGTH + 2) + req.pk_cert.length := by
      refine csub_of_lt (by simpa [SHA_DIGEST_LENGTH] using hshort') ?_
      rw [SIZE_eq]; norm_num [SHA_DIGEST_LENGTH]
    have hrr : ¬ (1 + (SIZE - (SHA_DIGEST_LENGTH + 2) +
        req.pk_cert.length) ≤ req.pk_cert.length) := by
      rw [SIZE_eq]
      simp only [SHA_DIGEST_LENGTH] at *
      omega
    simp only [check_pk_cert]
    rw [readByte_ok (show 0 < req.pk_cert.length by omega), Outcome.bind_ok,
      if_neg (not_not_intro hb0),
      readByte_ok (show 1 < req.pk_cert.length by omega), Outcome.bind_ok,
      if_neg (not_not_intro hb1),
      readByte_ok (show 11 < req.pk_cert.length by omega), Outcome.bind_ok,
      if_neg (not_not_intro (hb11 h12)), e22, readRange_oob hrr,
      Outcome.bind_oob]
  · simp only [check_pk_cert]
    rw [readByte_ok (show 0 < req.pk_cert.length by omega), Outcome.bind_ok,
      if_neg (not_not_intro hb0),
      readByte_ok (show 1 < req.pk_cert.length by omega), Outcome.bind_ok,
      if_neg (not_not_intro hb1),
      readByte_oob (show ¬ 11 < req.pk_cert.length by omega),
      Outcome.bind_oob]

/-! ## Behaviour of the issuer-key constructor -/

/-- On a certificate of at least 36 bytes whose key body and remainder fit
the scratch buffer, `make_issuer_pk` returns the key whose modulus bytes
are the key-body slice, the remainder, and the *unwritten tail of the
scratch allocation*, truncated to the certificate length. -/
lemma make_issuer_pk_eq (junk : List Nat) (req : SDAReq)
    (h36 : 36 ≤ req.pk_cert.length) (hsz : req.pk_cert.length < SIZE)
    (hfit : req.pk_cert.length - 36 + req.pk_r.length ≤ req.pk_cert.length) :
    make_issuer_pk junk req =
      .ok { n := ((req.pk_cert.drop 15).take (req.pk_cert.length - 36) ++
                  req.pk_r ++
                  ((junk ++ List.replicate req.pk_cert.length 0).take
                      req.pk_cert.length).drop
                    (req.pk_cert.length - 36 + req.pk_r.length)).take
                req.pk_cert.length,
            e := req.pk_exp } := by
  have e36 : csub req.pk_cert.length (15 + 21) = req.pk_cert.length - 36 :=
    csub_of_le (by omega) hsz
  simp only [make_issuer_pk]
  rw [e36,
    readRange_ok (show 15 + (req.pk_cert.length - 36) ≤ req.pk_cert.length by
      omega),
    Outcome.bind_ok, if_pos hfit]

/-- On a certificate shorter than 36 bytes the key-body length underflows
and the key-body `memcpy` reads out of bounds. -/
lemma make_issuer_pk_oob (junk : List Nat) (req : SDAReq)
    (hshort : req.pk_cert.length < 36) :
    make_issuer_pk junk req = .oob := by
  have e36 : csub req.pk_cert.length (15 + 21) =
      SIZE - 36 + req.pk_cert.length := by
    have := csub_of_lt (a := req.pk_cert.length) (b := 36) hshort
      (by rw [SIZE_eq]; norm_num)
    simpa using this
  have hrr : ¬ (15 + (SIZE - 36 + req.pk_cert.length) ≤
      req.pk_cert.length) := by
    rw [SIZE_eq]; omega
  simp only [make_issuer_pk]
  rw [e36, readRange_oob hrr, Outcome.bind_oob]

/-! ## Behaviour of the SSA validator -/

/-- On a block long enough for its accesses and an AIP of at least two
bytes, `check_ssa` is exactly the decoder run on
`ptr[1 .. 1 + (len - 22))` ++ the records in list order ++ the two AIP
bytes, against the block. -/
lemma check_ssa_eq (hash : HashFn) (ptr : List Nat) (rec : List (List Nat))
    (aip : List Nat) (hlen : SHA_DIGEST_LENGTH + 2 ≤ ptr.length)
    (hsz : ptr.length < SIZE) (haip : 2 ≤ aip.length) :
    check_ssa hash ptr rec aip =
      emsa_pss_decode hash
        ((ptr.drop 1).take (ptr.length - (SHA_DIGEST_LENGTH + 2)) ++
          rec.flatten ++ aip.take 2) ptr := by
  have hlen' : 22 ≤ ptr.length := by simpa [SHA_DIGEST_LENGTH] using hlen
  have e22 : csub ptr.length (SHA_DIGEST_LENGTH + 2) = ptr.length - 22 := by
    simpa [SHA_DIGEST_LENGTH] using
      csub_of_le (a := ptr.length) (b := 22) (by omega) hsz
  simp only [check_ssa]
  rw [e22, readRange_ok (show 1 + (ptr.length - 22) ≤ ptr.length by omega),
    Outcome.bind_ok, readRange_ok (show 0 + 2 ≤ aip.length by omega),
    Outcome.bind_ok]
  norm_num [SHA_DIGEST_LENGTH, List.take]

/-- After a successful in-place recovery with valid header bytes,
`verify_ssa_data` is `check_ssa` on the recovered block, and the request
it returns carries the recovered block in `ssa_data`. -/
lemma verify_ssa_data_eq (transform : RSATransform) (hash : HashFn)
    (rec : List (List Nat)) (req : SDAReq) (key : RSAKey) (aip : List Nat)
    (recd : List Nat) (hrec : recover transform key req.ssa_data = (true, recd))
    (hb0 : recd.getD 0 0 = 0x6a) (hb1 : recd.getD 1 0 = 0x03)
    (hb2 : recd.getD 2 0 = 0x01) (h3 : 3 ≤ recd.length) :
    verify_ssa_data transform hash rec req key aip =
      (check_ssa hash recd rec aip, { req with ssa_data := recd }) := by
  simp only [verify_ssa_data]
  rw [hrec]
  simp only []
  rw [readByte_ok (show 0 < recd.length by omega), Outcome.bind_ok,
    if_neg (not_not_intro hb0),
    readByte_ok (show 1 < recd.length by omega), Outcome.bind_ok,
    if_neg (not_not_intro hb1),
    readByte_ok (show 2 < recd.length by omega), Outcome.bind_ok,
    if_neg (not_not_intro hb2)]

/-- After a successful in-place recovery with a bad header byte (all three
header reads in bounds), `verify_ssa_data` fails with `BadFormat`, still
returning the mutated request. -/
lemma verify_ssa_data_badformat (transform : RSATransform) (hash : HashFn)
    (rec : List (List Nat)) (req : SDAReq) (key : RSAKey) (aip : List Nat)
    (recd : List Nat) (hrec : recover transform key req.ssa_data = (true, recd))
    (h3 : 3 ≤ recd.length)
    (hbad : ¬ (recd.getD 0 0 = 0x6a ∧ recd.getD 1 0 = 0x03 ∧
      recd.getD 2 0 = 0x01)) :
    verify_ssa_data transform hash rec req key aip =
      (.err .BadFormat, { req with ssa_data := recd }) := by
  simp only [verify_ssa_data]
  rw [hrec]
  simp only []
  rw [readByte_ok (show 0 < recd.length by omega), Outcome.bind_ok]
  by_cases h0 : recd.getD 0 0 = 0x6a
  · rw [if_neg (not_not_intro h0),
      readByte_ok (show 1 < recd.length by omega), Outcome.bind_ok]
    by_cases h1 : recd.getD 1 0 = 0x03
    · rw [if_neg (not_not_intro h1),
        readByte_ok (show 2 < recd.length by omega), Outcome.bind_ok]
      by_cases h2 : recd.getD 2 0 = 0x01
      · exact absurd ⟨h0, h1, h2⟩ hbad
      · rw [if_pos h2]
    · rw [if_pos h1]
  · rw [if_pos h0]

/-! ## Behaviour of the recovery wrapper -/

lemma recover_of_none {transform : RSATransform} {key : RSAKey}
    {buf : List Nat} (h : transform key buf = none) :
    recover transform key buf = (false, buf) := by
  simp [recover, h]

lemma recover_of_some_eq {transform : RSATransform} {key : RSAKey}
    {buf out : List Nat} (h : transform key buf = some out)
    (hl : out.length = buf.length) :
    recover transform key buf = (true, out) := by
  simp [recover, h, hl]

lemma recover_of_some_ne {transform : RSATransform} {key : RSAKey}
    {buf out : List Nat} (h : transform key buf = some out)
    (hl : out.length ≠ buf.length) :
    recover transform key buf = (false, buf) := by
  simp [recover, h, hl]

/-- A failed recovery leaves the caller-visible buffer unchanged. -/
lemma recover_false_frame {transform : RSATransform} {key : RSAKey}
    {buf : List Nat} (h : (recover transform key buf).1 = false) :
    (recover transform key buf).2 = buf := by
  cases htr : transform key buf with
  | none => rw [recover_of_none htr]
  | some out =>
    by_cases hl : out.length = buf.length
    · rw [recover_of_some_eq htr hl] at h
      simp at h
    · rw [recover_of_some_ne htr hl]

/-- A successful recovery returns exactly the transform's output, which is
length-preserving. -/
lemma recover_true_spec {transform : RSATransform} {key : RSAKey}
    {buf : List Nat} (h : (recover transform key buf).1 = true) :
    transform key buf = some (recover transform key buf).2 ∧
      (recover transform key buf).2.length = buf.length := by
  cases htr : transform key buf with
  | none =>
    rw [recover_of_none htr] at h
    simp at h
  | some out =>
    by_cases hl : out.length = buf.length
    · rw [recover_of_some_eq htr hl]
      exact ⟨rfl, hl⟩
    · rw [recover_of_some_ne htr hl] at h
      simp at h

/-! ## Behaviour of the issuer-certificate stage -/

lemma get_issuer_pk_len_ne (transform : RSATransform) (hash : HashFn)
    (junk : List Nat) (req : SDAReq) (ca_key : RSAKey) (key_len : Nat)
    (hne : req.pk_cert.length ≠ key_len) :
    get_issuer_pk transform hash junk req ca_key key_len =
      (.err .LengthMismatch, req) := by
  simp [get_issuer_pk, hne]

lemma get_issuer_pk_rec_fail (transform : RSATransform) (hash : HashFn)
    (junk : List Nat) (req : SDAReq) (ca_key : RSAKey) (key_len : Nat)
    (r2 : List Nat) (hlen : req.pk_cert.length = key_len)
    (hrec : recover transform ca_key req.pk_cert = (false, r2)) :
    get_issuer_pk transform hash junk req ca_key key_len =
      (.err .RecoveryFailed, req) := by
  simp only [get_issuer_pk]
  rw [if_neg (not_not_intro hlen), hrec]

lemma get_issuer_pk_rec_ok (transform : RSATransform) (hash : HashFn)
    (junk : List Nat) (req : SDAReq) (ca_key : RSAKey) (key_len : Nat)
    (rec : List Nat) (hlen : req.pk_cert.length = key_len)
    (hrec : recover transform ca_key req.pk_cert = (true, rec)) :
    get_issuer_pk transform hash junk req ca_key key_len =
      ((check_pk_cert hash { req with pk_cert := rec }).bind fun _ =>
          make_issuer_pk junk { req with pk_cert := rec },
        { req with pk_cert := rec }) := by
  simp only [get_issuer_pk]
  rw [if_neg (not_not_intro hlen), hrec]

/-! ## Behaviour of the orchestrator -/

lemma auth_unsupported (transform : RSATransform) (hash : HashFn)
    (junk : List Nat) (modcb expcb : KeyCb) (e : EmvCtx) (a0 : Nat)
    (ha : readByte e.e_aip 0 = .ok a0) (hbit : a0 &&& EMV_AIP_SDA = 0) :
    emv_authenticate_static_data transform hash junk modcb expcb e =
      (.err .UnsupportedMethod, e) := by
  simp only [emv_authenticate_static_data]
  rw [ha]
  simp only []
  rw [if_pos hbit]

lemma auth_data_missing (transform : RSATransform) (hash : HashFn)
    (junk : List Nat) (modcb expcb : KeyCb) (e : EmvCtx) (a0 : Nat)
    (ha : readByte e.e_aip 0 = .ok a0) (hbit : ¬ a0 &&& EMV_AIP_SDA = 0)
    (hgrd : get_required_data e = none) :
    emv_authenticate_static_data transform hash junk modcb expcb e =
      (.err .DataMissing, e) := by
  simp only [emv_authenticate_static_data]
  rw [ha]
  simp only []
  rw [if_neg hbit, hgrd]

lemma auth_key_not_found (transform : RSATransform) (hash : HashFn)
    (junk : List Nat) (modcb expcb : KeyCb) (e : EmvCtx) (a0 : Nat)
    (req : SDAReq) (ha : readByte e.e_aip 0 = .ok a0)
    (hbit : ¬ a0 &&& EMV_AIP_SDA = 0)
    (hgrd : get_required_data e = some req)
    (hca : get_ca_key req.ca_pk_idx modcb expcb = none) :
    emv_authenticate_static_data transform hash junk modcb expcb e =
      (.err .KeyNotFound, e) := by
  simp only [emv_authenticate_static_data]
  rw [ha]
  simp only []
  rw [if_neg hbit, hgrd]
  simp only []
  rw [hca]

lemma auth_iss_err (transform : RSATransform) (hash : HashFn)
    (junk : List Nat) (modcb expcb : KeyCb) (e : EmvCtx) (a0 : Nat)
    (req : SDAReq) (ca : RSAKey) (ckl : Nat) (er : SDAErr) (req' : SDAReq)
    (ha : readByte e.e_aip 0 = .ok a0) (hbit : ¬ a0 &&& EMV_AIP_SDA = 0)
    (hgrd : get_required_data e = some req)
    (hca : get_ca_key req.ca_pk_idx modcb expcb = some (ca, ckl))
    (hiss : get_issuer_pk transform hash junk req ca ckl = (.err er, req')) :
    emv_authenticate_static_data transform hash junk modcb expcb e =
      (.err er, { e with e_ca_pk := some ca,
                         tag_pk_cert := some req'.pk_cert,
                         e_iss_pk := none }) := by
  simp only [emv_authenticate_static_data]
  rw [ha]
  simp only []
  rw [if_neg hbit, hgrd]
  simp only []
  rw [hca]
  simp only []
  rw [hiss]

lemma auth_iss_oob (transform : RSATransform) (hash : HashFn)
    (junk : List Nat) (modcb expcb : KeyCb) (e : EmvCtx) (a0 : Nat)
    (req : SDAReq) (ca : RSAKey) (ckl : Nat) (req' : SDAReq)
    (ha : readByte e.e_aip 0 = .ok a0) (hbit : ¬ a0 &&& EMV_AIP_SDA = 0)
    (hgrd : get_required_data e = some req)
    (hca : get_ca_key req.ca_pk_idx modcb expcb = some (ca, ckl))
    (hiss : get_issuer_pk transform hash junk req ca ckl = (.oob, req')) :
    emv_authenticate_static_data transform hash junk modcb expcb e =
      (.oob, { e with e_ca_pk := some ca,
                      tag_pk_cert := some req'.pk_cert,
                      e_iss_pk := none }) := by
  simp only [emv_authenticate_static_data]
  rw [ha]
  simp only []
  rw [if_neg hbit, hgrd]
  simp only []
  rw [hca]
  simp only []
  rw [hiss]

lemma auth_ssa_ok (transform : RSATransform) (hash : HashFn)
    (junk : List Nat) (modcb expcb : KeyCb) (e : EmvCtx) (a0 : Nat)
    (req : SDAReq) (ca : RSAKey) (ckl : Nat) (iss : RSAKey)
    (req' req'' : SDAReq)
    (ha : readByte e.e_aip 0 = .ok a0) (hbit : ¬ a0 &&& EMV_AIP_SDA = 0)
    (hgrd : get_required_data e = some req)
    (hca : get_ca_key req.ca_pk_idx modcb expcb = some (ca, ckl))
    (hiss : get_issuer_pk transform hash junk req ca ckl = (.ok iss, req'))
    (hssa : verify_ssa_data transform hash e.db_sda req' iss e.e_aip =
      (.ok (), req'')) :
    emv_authenticate_static_data transform hash junk modcb expcb e =
      (.ok (), { e with e_ca_pk := some ca,
                        tag_pk_cert := some req'.pk_cert,
                        e_iss_pk := some iss,
                        tag_ssa := some req''.ssa_data,
                        e_sda_ok := true }) := by
  simp only [emv_authenticate_static_data]
  rw [ha]
  simp only []
  rw [if_neg hbit, hgrd]
  simp only []
  rw [hca]
  simp only []
  rw [hiss]
  simp only []
  rw [hssa]

lemma auth_ssa_err (transform : RSATransform) (hash : HashFn)
    (junk : List Nat) (modcb expcb : KeyCb) (e : EmvCtx) (a0 : Nat)
    (req : SDAReq) (ca : RSAKey) (ckl : Nat) (iss : RSAKey) (er : SDAErr)
    (req' req'' : SDAReq)
    (ha : readByte e.e_aip 0 = .ok a0) (hbit : ¬ a0 &&& EMV_AIP_SDA = 0)
    (hgrd : get_required_data e = some req)
    (hca : get_ca_key req.ca_pk_idx modcb expcb = some (ca, ckl))
    (hiss : get_issuer_pk transform hash junk req ca ckl = (.ok iss, req'))
    (hssa : verify_ssa_data transform hash e.db_sda req' iss e.e_aip =
      (.err er, req'')) :
    emv_authenticate_static_data transform hash junk modcb expcb e =
      (.err er, { e with e_ca_pk := some ca,
                         tag_pk_cert := some req'.pk_cert,
                         e_iss_pk := some iss,
                         tag_ssa := some req''.ssa_data }) := by
  simp only [emv_authenticate_static_data]
  rw [ha]
  simp only []
  rw [if_neg hbit, hgrd]
  simp only []
  rw [hca]
  simp only []
  rw [hiss]
  simp only []
  rw [hssa]

lemma auth_ssa_oob (transform : RSATransform) (hash : HashFn)
    (junk : List Nat) (modcb expcb : KeyCb) (e : EmvCtx) (a0 : Nat)
    (req : SDAReq) (ca : RSAKey) (ckl : Nat) (iss : RSAKey)
    (req' req'' : SDAReq)
    (ha : readByte e.e_aip 0 = .ok a0) (hbit : ¬ a0 &&& EMV_AIP_SDA = 0)
    (hgrd : get_required_data e = some req)
    (hca : get_ca_key req.ca_pk_idx modcb expcb = some (ca, ckl))
    (hiss : get_issuer_pk transform hash junk req ca ckl = (.ok iss, req'))
    (hssa : verify_ssa_data transform hash e.db_sda req' iss e.e_aip =
      (.oob, req'')) :
    emv_authenticate_static_data transform hash junk modcb expcb e =
      (.oob, { e with e_ca_pk := some ca,
                      tag_pk_cert := some req'.pk_cert,
                      e_iss_pk := some iss,
                      tag_ssa := some req''.ssa_data }) := by
  simp only [emv_authenticate_static_data]
  rw [ha]
  simp only []
  rw [if_neg hbit, hgrd]
  simp only []
  rw [hca]
  simp only []
  rw [hiss]
  simp only []
  rw [hssa]

lemma auth_aip_oob (transform : RSATransform) (hash : HashFn)
    (junk : List Nat) (modcb expcb : KeyCb) (e : EmvCtx)
    (ha : readByte e.e_aip 0 = .oob) :
    emv_authenticate_static_data transform hash junk modcb expcb e =
      (.oob, e) := by
  simp only [emv_authenticate_static_data]
  rw [ha]

lemma auth_aip_err (transform : RSATransform) (hash : HashFn)
    (junk : List Nat) (modcb expcb : KeyCb) (e : EmvCtx) (er : SDAErr)
    (ha : readByte e.e_aip 0 = .err er) :
    emv_authenticate_static_data transform hash junk modcb expcb e =
      (.err er, e) := by
  simp only [emv_authenticate_static_data]
  rw [ha]

/-- The request returned by the certificate stage always carries the
post-recovery certificate bytes, whatever the validation outcome. -/
lemma get_issuer_pk_snd_rec_ok (transform : RSATransform) (hash : HashFn)
    (junk : List Nat) (req : SDAReq) (ca_key : RSAKey) (key_len : Nat)
    (rec : List Nat) (hlen : req.pk_cert.length = key_len)
    (hrec : recover transform ca_key req.pk_cert = (true, rec)) :
    (get_issuer_pk transform hash junk req ca_key key_len).2.pk_cert =
      rec := by
  rw [get_issuer_pk_rec_ok transform hash junk req ca_key key_len rec hlen
    hrec]

/-- The request returned by the SSA stage always carries the post-recovery
SSA bytes, whatever the validation outcome. -/
lemma verify_ssa_data_snd (transform : RSATransform) (hash : HashFn)
    (rec : List (List Nat)) (req : SDAReq) (key : RSAKey) (aip : List Nat)
    (recd : List Nat)
    (hrec : recover transform key req.ssa_data = (true, recd)) :
    (verify_ssa_data transform hash rec req key aip).2.ssa_data = recd := by
  simp only [verify_ssa_data]
  rw [hrec]

/-- When SSA recovery fails, the stage fails and the request is returned
unchanged. -/
lemma verify_ssa_data_rec_fail (transform : RSATransform) (hash : HashFn)
    (rec : List (List Nat)) (req : SDAReq) (key : RSAKey) (aip : List Nat)
    (r2 : List Nat)
    (hrec : recover transform key req.ssa_data = (false, r2)) :
    verify_ssa_data transform hash rec req key aip =
      (.err .RecoveryFailed, req) := by
  simp only [verify_ssa_data]
  rw [hrec]

/-- Either the whole pipeline succeeded and set the flag, or it failed and
left the flag exactly as it was. -/
lemma auth_flag_cases (transform : RSATransform) (hash : HashFn)
    (junk : List Nat) (modcb expcb : KeyCb) (e : EmvCtx) :
    ((emv_authenticate_static_data transform hash junk modcb expcb e).1 =
        .ok () ∧
      (emv_authenticate_static_data transform hash junk modcb expcb e).2.e_sda_ok
        = true) ∨
    ((emv_authenticate_static_data transform hash junk modcb expcb e).1 ≠
        .ok () ∧
      (emv_authenticate_static_data transform hash junk modcb expcb e).2.e_sda_ok
        = e.e_sda_ok) := by
  cases ha : readByte e.e_aip 0 with
  | oob =>
    rw [auth_aip_oob transform hash junk modcb expcb e ha]
    right
    exact ⟨by simp, rfl⟩
  | err er =>
    rw [auth_aip_err transform hash junk modcb expcb e er ha]
    right
    exact ⟨by simp, rfl⟩
  | ok a0 =>
    by_cases hbit : a0 &&& EMV_AIP_SDA = 0
    · rw [auth_unsupported transform hash junk modcb expcb e a0 ha hbit]
      right
      exact ⟨by simp, rfl⟩
    · cases hgrd : get_required_data e with
      | none =>
        rw [auth_data_missing transform hash junk modcb expcb e a0 ha hbit
          hgrd]
        right
        exact ⟨by simp, rfl⟩
      | some req =>
        cases hca : get_ca_key req.ca_pk_idx modcb expcb with
        | none =>
          rw [auth_key_not_found transform hash junk modcb expcb e a0 req ha
            hbit hgrd hca]
          right
          exact ⟨by simp, rfl⟩
        | some p =>
          obtain ⟨ca, ckl⟩ := p
          rcases hg : get_issuer_pk transform hash junk req ca ckl with
            ⟨res, req'⟩
          cases res with
          | err er =>
            rw [auth_iss_err transform hash junk modcb expcb e a0 req ca ckl
              er req' ha hbit hgrd hca hg]
            right
            exact ⟨by simp, rfl⟩
          | oob =>
            rw [auth_iss_oob transform hash junk modcb expcb e a0 req ca ckl
              req' ha hbit hgrd hca hg]
            right
            exact ⟨by simp, rfl⟩
          | ok iss =>
            rcases hs : verify_ssa_data transform hash e.db_sda req' iss
                e.e_aip with ⟨res2, req''⟩
            cases res2 with
            | ok u =>
              cases u
              rw [auth_ssa_ok transform hash junk modcb expcb e a0 req ca ckl
                iss req' req'' ha hbit hgrd hca hg hs]
              left
              exact ⟨rfl, rfl⟩
            | err er =>
              rw [auth_ssa_err transform hash junk modcb expcb e a0 req ca ckl
                iss er req' req'' ha hbit hgrd hca hg hs]
              right
              exact ⟨by simp, rfl⟩
            | oob =>
              rw [auth_ssa_oob transform hash junk modcb expcb e a0 req ca ckl
                iss req' req'' ha hbit hgrd hca hg hs]
              right
              exact ⟨by simp, rfl⟩

/-- The PK-remainder and PK-exponent tag records are never written by the
pipeline. -/
lemma auth_preserves_r_exp (transform : RSATransform) (hash : HashFn)
    (junk : List Nat) (modcb expcb : KeyCb) (e : EmvCtx) :
    (emv_authenticate_static_data transform hash junk modcb expcb e).2.tag_pk_r
        = e.tag_pk_r ∧
    (emv_authenticate_static_data transform hash junk modcb expcb e).2.tag_pk_exp
        = e.tag_pk_exp := by
  cases ha : readByte e.e_aip 0 with
  | oob =>
    rw [auth_aip_oob transform hash junk modcb expcb e ha]
    exact ⟨rfl, rfl⟩
  | err er =>
    rw [auth_aip_err transform hash junk modcb expcb e er ha]
    exact ⟨rfl, rfl⟩
  | ok a0 =>
    by_cases hbit : a0 &&& EMV_AIP_SDA = 0
    · rw [auth_unsupported transform hash junk modcb expcb e a0 ha hbit]
      exact ⟨rfl, rfl⟩
    · cases hgrd : get_required_data e with
      | none =>
        rw [auth_data_missing transform hash junk modcb expcb e a0 ha hbit
          hgrd]
        exact ⟨rfl, rfl⟩
      | some req =>
        cases hca : get_ca_key req.ca_pk_idx modcb expcb with
        | none =>
          rw [auth_key_not_found transform hash junk modcb expcb e a0 req ha
            hbit hgrd hca]
          exact ⟨rfl, rfl⟩
        | some p =>
          obtain ⟨ca, ckl⟩ := p
          rcases hg : get_issuer_pk transform hash junk req ca ckl with
            ⟨res, req'⟩
          cases res with
          | err er =>
            rw [auth_iss_err transform hash junk modcb expcb e a0 req ca ckl
              er req' ha hbit hgrd hca hg]
            exact ⟨rfl, rfl⟩
          | oob =>
            rw [auth_iss_oob transform hash junk modcb expcb e a0 req ca ckl
              req' ha hbit hgrd hca hg]
            exact ⟨rfl, rfl⟩
          | ok iss =>
            rcases hs : verify_ssa_data transform hash e.db_sda req' iss
                e.e_aip with ⟨res2, req''⟩
            cases res2 with
            | ok u =>
              cases u
              rw [auth_ssa_ok transform hash junk modcb expcb e a0 req ca ckl
                iss req' req'' ha hbit hgrd hca hg hs]
              exact ⟨rfl, rfl⟩
            | err er =>
              rw [auth_ssa_err transform hash junk modcb expcb e a0 req ca ckl
                iss er req' req'' ha hbit hgrd hca hg hs]
              exact ⟨rfl, rfl⟩
            | oob =>
              rw [auth_ssa_oob transform hash junk modcb expcb e a0 req ca ckl
                iss req' req'' ha hbit hgrd hca hg hs]
              exact ⟨rfl, rfl⟩

/-- Once the CA key has been obtained, the final context's certificate
record holds whatever bytes the certificate stage left in the aliased
buffer. -/
lemma auth_tag_cert (transform : RSATransform) (hash : HashFn)
    (junk : List Nat) (modcb expcb : KeyCb) (e : EmvCtx) (a0 : Nat)
    (req : SDAReq) (ca : RSAKey) (ckl : Nat)
    (ha : readByte e.e_aip 0 = .ok a0) (hbit : ¬ a0 &&& EMV_AIP_SDA = 0)
    (hgrd : get_required_data e = some req)
    (hca : get_ca_key req.ca_pk_idx modcb expcb = some (ca, ckl)) :
    (emv_authenticate_static_data transform hash junk modcb expcb e).2.tag_pk_cert
      = some (get_issuer_pk transform hash junk req ca ckl).2.pk_cert := by
  rcases hg : get_issuer_pk transform hash junk req ca ckl with ⟨res, req'⟩
  cases res with
  | err er =>
    rw [auth_iss_err transform hash junk modcb expcb e a0 req ca ckl er req'
      ha hbit hgrd hca hg]
  | oob =>
    rw [auth_iss_oob transform hash junk modcb expcb e a0 req ca ckl req'
      ha hbit hgrd hca hg]
  | ok iss =>
    rcases hs : verify_ssa_data transform hash e.db_sda req' iss e.e_aip with
      ⟨res2, req''⟩
    cases res2 with
    | ok u =>
      cases u
      rw [auth_ssa_ok transform hash junk modcb expcb e a0 req ca ckl iss
        req' req'' ha hbit hgrd hca hg hs]
    | err er =>
      rw [auth_ssa_err transform hash junk modcb expcb e a0 req ca ckl iss
        er req' req'' ha hbit hgrd hca hg hs]
    | oob =>
      rw [auth_ssa_oob transform hash junk modcb expcb e a0 req ca ckl iss
        req' req'' ha hbit hgrd hca hg hs]

/-- Once the certificate stage has produced an issuer key, the final
context's SSA record holds whatever bytes the SSA stage left in the
aliased buffer. -/
lemma auth_tag_ssa (transform : RSATransform) (hash : HashFn)
    (junk : List Nat) (modcb expcb : KeyCb) (e : EmvCtx) (a0 : Nat)
    (req : SDAReq) (ca : RSAKey) (ckl : Nat) (iss : RSAKey) (req' : SDAReq)
    (ha : readByte e.e_aip 0 = .ok a0) (hbit : ¬ a0 &&& EMV_AIP_SDA = 0)
    (hgrd : get_required_data e = some req)
    (hca : get_ca_key req.ca_pk_idx modcb expcb = some (ca, ckl))
    (hg : get_issuer_pk transform hash junk req ca ckl = (.ok iss, req')) :
    (emv_authenticate_static_data transform hash junk modcb expcb e).2.tag_ssa
      = some (verify_ssa_data transform hash e.db_sda req' iss
          e.e_aip).2.ssa_data := by
  rcases hs : verify_ssa_data transform hash e.db_sda req' iss e.e_aip with
    ⟨res2, req''⟩
  cases res2 with
  | ok u =>
    cases u
    rw [auth_ssa_ok transform hash junk modcb expcb e a0 req ca ckl iss
      req' req'' ha hbit hgrd hca hg hs]
  | err er =>
    rw [auth_ssa_err transform hash junk modcb expcb e a0 req ca ckl iss
      er req' req'' ha hbit hgrd hca hg hs]
  | oob =>
    rw [auth_ssa_oob transform hash junk modcb expcb e a0 req ca ckl iss
      req' req'' ha hbit hgrd hca hg hs]

/-! ## Claim theorems -/

/-- C1: for every message and recovered block (with all accesses in
bounds), the decoder computes the digest of the message, fails unless the
last block byte is `0xBC`, fails unless the `digest_len` bytes at offset
`block_len - digest_len - 1` equal the digest byte-for-byte, succeeds
exactly when both checks pass, and is the sole comparison deciding
validity once the certificate and SSA stages reach it: each stage's
verdict is literally the decoder's verdict on its constructed message. -/
theorem emsa_pss_decode_sole_gate (hash : HashFn) (msg em : List Nat)
    (req : SDAReq) (blk : List Nat) (recs : List (List Nat)) (aip : List Nat)
    (_hdig : (hash msg).length = SHA_DIGEST_LENGTH)
    (h21 : SHA_DIGEST_LENGTH + 1 ≤ em.length) (hsz : em.length < SIZE) :
    (emsa_pss_decode hash msg em = .ok () ↔
      (em.getD (em.length - 1) 0 = 0xbc ∧
        (em.drop (em.length - (SHA_DIGEST_LENGTH + 1))).take SHA_DIGEST_LENGTH
          = hash msg)) ∧
    (em.getD (em.length - 1) 0 ≠ 0xbc →
      emsa_pss_decode hash msg em = .err .BadTrailer) ∧
    (em.getD (em.length - 1) 0 = 0xbc →
      (em.drop (em.length - (SHA_DIGEST_LENGTH + 1))).take SHA_DIGEST_LENGTH
        ≠ hash msg →
      emsa_pss_decode hash msg em = .err .HashMismatch) ∧
    (SHA_DIGEST_LENGTH + 2 ≤ req.pk_cert.length → req.pk_cert.length < SIZE →
      req.pk_cert.getD 0 0 = 0x6a → req.pk_cert.getD 1 0 = 0x02 →
      req.pk_cert.getD 11 0 = 0x01 →
      check_pk_cert hash req =
        emsa_pss_decode hash
          ((req.pk_cert.drop 1).take
              (req.pk_cert.length - (SHA_DIGEST_LENGTH + 2)) ++
            req.pk_r ++ req.pk_exp) req.pk_cert) ∧
    (SHA_DIGEST_LENGTH + 2 ≤ blk.length → blk.length < SIZE →
      2 ≤ aip.length →
      check_ssa hash blk recs aip =
        emsa_pss_decode hash
          ((blk.drop 1).take (blk.length - (SHA_DIGEST_LENGTH + 2)) ++
            recs.flatten ++ aip.take 2) blk) := by
  refine ⟨?_, ?_, ?_, ?_, ?_⟩
  · rw [emsa_pss_decode_eq hash msg em h21 hsz]
    constructor
    · intro h
      by_cases hbc : em.getD (em.length - 1) 0 = 0xbc
      · rw [if_pos hbc] at h
        by_cases hseg : (em.drop (em.length - (SHA_DIGEST_LENGTH + 1))).take
            SHA_DIGEST_LENGTH = hash msg
        · exact ⟨hbc, hseg⟩
        · rw [if_neg hseg] at h
          exact absurd h (by simp)
      · rw [if_neg hbc] at h
        exact absurd h (by simp)
    · rintro ⟨hbc, hseg⟩
      rw [if_pos hbc, if_pos hseg]
  · intro hbc
    rw [emsa_pss_decode_eq hash msg em h21 hsz, if_neg hbc]
  · intro hbc hseg
    rw [emsa_pss_decode_eq hash msg em h21 hsz, if_pos hbc, if_neg hseg]
  · intro a b c d e2
    exact check_pk_cert_eq hash req a b c d e2
  · intro a b c
    exact check_ssa_eq hash blk recs aip a b c

/-- Witness for C1 at a concrete message/block/stage instance. -/
theorem emsa_pss_decode_sole_gate_witness :
    (hashZ [1]).length = SHA_DIGEST_LENGTH ∧
    SHA_DIGEST_LENGTH + 1 ≤ goodCert.length ∧ goodCert.length < SIZE ∧
    (emsa_pss_decode hashZ [1] goodCert = .ok () ↔
      (goodCert.getD (goodCert.length - 1) 0 = 0xbc ∧
        (goodCert.drop (goodCert.length - (SHA_DIGEST_LENGTH + 1))).take
          SHA_DIGEST_LENGTH = hashZ [1])) :=
  ⟨by decide, by decide, by decide,
    (emsa_pss_decode_sole_gate hashZ [1] goodCert req0 goodSsa
      [[0x5a, 1], [2]] [0x40, 0] (by decide) (by decide) (by decide)).1⟩

/-- C4: on an in-bounds recovered certificate, validation fails with
`BadFormat` unless bytes 0, 1, 11 are `6a 02 01`, and otherwise the hashed
message is exactly recovered-cert bytes
`[1 .. 1 + (len - (digest_len + 2)))` ++ remainder ++ exponent, decoded
against the full recovered certificate as the block. -/
theorem check_pk_cert_header_and_message (hash : HashFn) (req : SDAReq)
    (hlen : SHA_DIGEST_LENGTH + 2 ≤ req.pk_cert.length)
    (hsz : req.pk_cert.length < SIZE) :
    (¬ (req.pk_cert.getD 0 0 = 0x6a ∧ req.pk_cert.getD 1 0 = 0x02 ∧
        req.pk_cert.getD 11 0 = 0x01) →
      check_pk_cert hash req = .err .BadFormat) ∧
    (req.pk_cert.getD 0 0 = 0x6a → req.pk_cert.getD 1 0 = 0x02 →
      req.pk_cert.getD 11 0 = 0x01 →
      check_pk_cert hash req =
        emsa_pss_decode hash
          ((req.pk_cert.drop 1).take
              (req.pk_cert.length - (SHA_DIGEST_LENGTH + 2)) ++
            req.pk_r ++ req.pk_exp) req.pk_cert) := by
  have h22 : 22 ≤ req.pk_cert.length := by
    simpa [SHA_DIGEST_LENGTH] using hlen
  exact ⟨fun hbad => check_pk_cert_badformat hash req (by omega) hbad,
    fun h0 h1 h11 => check_pk_cert_eq hash req hlen hsz h0 h1 h11⟩

/-- Witness for C4 at the fixture certificate. -/
theorem check_pk_cert_header_and_message_witness :
    SHA_DIGEST_LENGTH + 2 ≤ req0.pk_cert.length ∧
    req0.pk_cert.getD 0 0 = 0x6a ∧
    check_pk_cert hashZ req0 =
      emsa_pss_decode hashZ
        ((req0.pk_cert.drop 1).take
            (req0.pk_cert.length - (SHA_DIGEST_LENGTH + 2)) ++
          req0.pk_r ++ req0.pk_exp) req0.pk_cert :=
  ⟨by decide, by decide,
    (check_pk_cert_header_and_message hashZ req0 (by decide) (by decide)).2
      (by decide) (by decide) (by decide)⟩

set_option maxRecDepth 4096 in
/-- C5: after a successful in-place recovery of the SSA block, validation
fails with `BadFormat` unless bytes 0, 1, 2 are `6a 03 01`, and otherwise
the hashed message is exactly recovered-block bytes
`[1 .. 1 + (len - (digest_len + 2)))`, then the raw bytes of every
SDA-relevant record in list (original parse) order, then the two AIP
bytes, decoded against the recovered block. -/
theorem verify_ssa_header_and_message (transform : RSATransform)
    (hash : HashFn) (recs : List (List Nat)) (req : SDAReq) (key : RSAKey)
    (aip : List Nat) (recd : List Nat)
    (hrec : recover transform key req.ssa_data = (true, recd))
    (hlen : SHA_DIGEST_LENGTH + 2 ≤ recd.length) (hsz : recd.length < SIZE)
    (haip : 2 ≤ aip.length) :
    (¬ (recd.getD 0 0 = 0x6a ∧ recd.getD 1 0 = 0x03 ∧
        recd.getD 2 0 = 0x01) →
      (verify_ssa_data transform hash recs req key aip).1 =
        .err .BadFormat) ∧
    (recd.getD 0 0 = 0x6a → recd.getD 1 0 = 0x03 → recd.getD 2 0 = 0x01 →
      (verify_ssa_data transform hash recs req key aip).1 =
        emsa_pss_decode hash
          ((recd.drop 1).take (recd.length - (SHA_DIGEST_LENGTH + 2)) ++
            recs.flatten ++ aip.take 2) recd) := by
  have h3 : 3 ≤ recd.length := by
    have : 22 ≤ recd.length := by simpa [SHA_DIGEST_LENGTH] using hlen
    omega
  constructor
  · intro hbad
    rw [verify_ssa_data_badformat transform hash recs req key aip recd hrec
      h3 hbad]
  · intro h0 h1 h2
    have hfst : (verify_ssa_data transform hash recs req key aip).1 =
        check_ssa hash recd recs aip := by
      rw [verify_ssa_data_eq transform hash recs req key aip recd hrec h0 h1
        h2 h3]
    exact hfst.trans (check_ssa_eq hash recd recs aip hlen hsz haip)

/-- Witness for C5 at the fixture SSA block and two records. -/
theorem verify_ssa_header_and_message_witness :
    recover idT caK36 req0.ssa_data = (true, goodSsa) ∧
    (verify_ssa_data idT hashZ [[0x5a, 1], [2]] req0 caK36 [0x40, 0]).1 =
      emsa_pss_decode hashZ
        ((goodSsa.drop 1).take (goodSsa.length - (SHA_DIGEST_LENGTH + 2)) ++
          [[0x5a, 1], [2]].flatten ++ [0x40, 0].take 2) goodSsa :=
  ⟨by decide,
    (verify_ssa_header_and_message idT hashZ [[0x5a, 1], [2]] req0 caK36
      [0x40, 0] goodSsa (by decide) (by decide) (by decide) (by decide)).2
      (by decide) (by decide) (by decide)⟩

/-- C8: the recovery wrapper overwrites the caller-visible buffer exactly
when the raw transform succeeds with output length equal to the input
length; on a failed or non-length-preserving transform it reports failure
and leaves the buffer untouched. -/
theorem recover_length_preserving_frame (transform : RSATransform)
    (key : RSAKey) (buf out : List Nat) :
    (transform key buf = some out → out.length = buf.length →
      recover transform key buf = (true, out)) ∧
    (transform key buf = some out → out.length ≠ buf.length →
      recover transform key buf = (false, buf)) ∧
    (transform key buf = none → recover transform key buf = (false, buf)) ∧
    ((recover transform key buf).1 = false →
      (recover transform key buf).2 = buf) ∧
    ((recover transform key buf).1 = true →
      transform key buf = some (recover transform key buf).2 ∧
        (recover transform key buf).2.length = buf.length) :=
  ⟨fun h hl => recover_of_some_eq h hl, fun h hl => recover_of_some_ne h hl,
    fun h => recover_of_none h, fun h => recover_false_frame h,
    fun h => recover_true_spec h⟩

/-- Witness for C8: a length-preserving transform overwrites the buffer. -/
theorem recover_length_preserving_frame_witness :
    idT caK36 [1, 2] = some [1, 2] ∧
    recover idT caK36 [1, 2] = (true, [1, 2]) :=
  ⟨by decide,
    (recover_length_preserving_frame idT caK36 [1, 2] [1, 2]).1 (by decide)
      (by decide)⟩

/-- C9: the decoder and the validators do no length validation of their
own: a full run in which every explicit check passes but the certificate
(equal in length to a small CA modulus) is shorter than `digest_len + 2`
reads out of bounds; with the trailer present, a block shorter than
`digest_len + 1` underflows `body_len` and the digest `memcmp` reads out
of bounds; a certificate shorter than `digest_len + 2` whose present
header bytes pass drives `check_pk_cert` out of bounds; and a certificate
shorter than 36 bytes drives the issuer-key extraction at offsets
`[15, len - 21)` out of bounds. -/
theorem sda_missing_bounds_checks (hash : HashFn) (req : SDAReq)
    (junk : List Nat) (msg em : List Nat) :
    ((emv_authenticate_static_data idT hashZ junk0 mod2 exp3 ctxC9).1 =
      .oob) ∧
    (em.getD (em.length - 1) 0 = 0xbc → em.length < SHA_DIGEST_LENGTH + 1 →
      emsa_pss_decode hash msg em = .oob) ∧
    (req.pk_cert.length < SHA_DIGEST_LENGTH + 2 →
      req.pk_cert.getD 0 0 = 0x6a → req.pk_cert.getD 1 0 = 0x02 →
      (12 ≤ req.pk_cert.length → req.pk_cert.getD 11 0 = 0x01) →
      check_pk_cert hash req = .oob) ∧
    (req.pk_cert.length < 36 → make_issuer_pk junk req = .oob) :=
  ⟨by decide,
    fun a b => emsa_pss_decode_oob hash msg em a b,
    fun a b c d => check_pk_cert_oob hash req a b c d,
    fun a => make_issuer_pk_oob junk req a⟩

/-- Witness for C9: the 2-byte certificate stage reads out of bounds
although its header bytes pass. -/
theorem sda_missing_bounds_checks_witness :
    req9.pk_cert.length < SHA_DIGEST_LENGTH + 2 ∧
    req9.pk_cert.getD 0 0 = 0x6a ∧
    check_pk_cert hashZ req9 = .oob :=
  ⟨by decide, by decide,
    (sda_missing_bounds_checks hashZ req9 junk0 [] []).2.2.1 (by decide)
      (by decide) (by decide) (by decide)⟩

/-- C7: when the issuer certificate's byte length differs from the CA
modulus byte length, the certificate stage and the whole attempt fail with
`LengthMismatch`, for *every* RSA transform, hash function and scratch
state — i.e. before any recovery or hashing is attempted — leaving the
context with only the CA key stored. -/
theorem authenticate_length_precheck (modcb expcb : KeyCb) (e : EmvCtx)
    (a0 : Nat) (req : SDAReq) (ca : RSAKey) (ckl : Nat)
    (ha : readByte e.e_aip 0 = .ok a0) (hbit : ¬ a0 &&& EMV_AIP_SDA = 0)
    (hgrd : get_required_data e = some req)
    (hca : get_ca_key req.ca_pk_idx modcb expcb = some (ca, ckl))
    (hne : req.pk_cert.length ≠ ckl) :
    (∀ (t2 : RSATransform) (h2 : HashFn) (j2 : List Nat),
      get_issuer_pk t2 h2 j2 req ca ckl = (.err .LengthMismatch, req)) ∧
    (∀ (t2 : RSATransform) (h2 : HashFn) (j2 : List Nat),
      emv_authenticate_static_data t2 h2 j2 modcb expcb e =
        (.err .LengthMismatch,
          { e with e_ca_pk := some ca, tag_pk_cert := some req.pk_cert,
                   e_iss_pk := none })) := by
  constructor
  · intro t2 h2 j2
    exact get_issuer_pk_len_ne t2 h2 j2 req ca ckl hne
  · intro t2 h2 j2
    exact auth_iss_err t2 h2 j2 modcb expcb e a0 req ca ckl .LengthMismatch
      req ha hbit hgrd hca (get_issuer_pk_len_ne t2 h2 j2 req ca ckl hne)

/-- Witness for C7: a 36-byte certificate against a 35-byte CA modulus. -/
theorem authenticate_length_precheck_witness :
    req0.pk_cert.length ≠ 35 ∧
    emv_authenticate_static_data idT hashZ junk0 mod35 exp3 ctx0 =
      (.err .LengthMismatch,
        { ctx0 with e_ca_pk := some { n := List.replicate 35 1, e := [3] },
                    tag_pk_cert := some req0.pk_cert, e_iss_pk := none }) :=
  ⟨by decide,
    (authenticate_length_precheck mod35 exp3 ctx0 0x40 req0
      { n := List.replicate 35 1, e := [3] } 35 (by decide) (by decide)
      (by decide) (by decide) (by decide)).2 idT hashZ junk0⟩

/-- C10: the CA key is stored on the context as soon as acquisition
succeeds and the issuer key as soon as the certificate stage succeeds, so
an attempt failing in any later stage leaves the keys on the context with
the authenticated flag still false. -/
theorem authenticate_retains_keys_on_failure (transform : RSATransform)
    (hash : HashFn) (junk : List Nat) (modcb expcb : KeyCb) (e : EmvCtx)
    (a0 : Nat) (req : SDAReq) (ca : RSAKey) (ckl : Nat)
    (hinit : e.e_sda_ok = false)
    (ha : readByte e.e_aip 0 = .ok a0) (hbit : ¬ a0 &&& EMV_AIP_SDA = 0)
    (hgrd : get_required_data e = some req)
    (hca : get_ca_key req.ca_pk_idx modcb expcb = some (ca, ckl)) :
    ((emv_authenticate_static_data transform hash junk modcb expcb e).2.e_ca_pk
      = some ca) ∧
    (∀ er, (emv_authenticate_static_data transform hash junk modcb expcb e).1
        = .err er →
      (emv_authenticate_static_data transform hash junk modcb expcb e).2.e_sda_ok
        = false) ∧
    (∀ iss req2,
      get_issuer_pk transform hash junk req ca ckl = (.ok iss, req2) →
      (emv_authenticate_static_data transform hash junk modcb expcb e).2.e_iss_pk
        = some iss) := by
  refine ⟨?_, ?_, ?_⟩
  · rcases hg : get_issuer_pk transform hash junk req ca ckl with ⟨res, req'⟩
    cases res with
    | err er =>
      rw [auth_iss_err transform hash junk modcb expcb e a0 req ca ckl er
        req' ha hbit hgrd hca hg]
    | oob =>
      rw [auth_iss_oob transform hash junk modcb expcb e a0 req ca ckl req'
        ha hbit hgrd hca hg]
    | ok iss =>
      rcases hs : verify_ssa_data transform hash e.db_sda req' iss e.e_aip
        with ⟨res2, req''⟩
      cases res2 with
      | ok u =>
        cases u
        rw [auth_ssa_ok transform hash junk modcb expcb e a0 req ca ckl iss
          req' req'' ha hbit hgrd hca hg hs]
      | err er =>
        rw [auth_ssa_err transform hash junk modcb expcb e a0 req ca ckl iss
          er req' req'' ha hbit hgrd hca hg hs]
      | oob =>
        rw [auth_ssa_oob transform hash junk modcb expcb e a0 req ca ckl iss
          req' req'' ha hbit hgrd hca hg hs]
  · intro er herr
    rcases auth_flag_cases transform hash junk modcb expcb e with
      ⟨hok, _⟩ | ⟨_, hflag⟩
    · rw [hok] at herr
      exact absurd herr (by simp)
    · rw [hflag, hinit]
  · intro iss req2 hg
    rcases hs : verify_ssa_data transform hash e.db_sda req2 iss e.e_aip
      with ⟨res2, req''⟩
    cases res2 with
    | ok u =>
      cases u
      rw [auth_ssa_ok transform hash junk modcb expcb e a0 req ca ckl iss
        req2 req'' ha hbit hgrd hca hg hs]
    | err er =>
      rw [auth_ssa_err transform hash junk modcb expcb e a0 req ca ckl iss
        er req2 req'' ha hbit hgrd hca hg hs]
    | oob =>
      rw [auth_ssa_oob transform hash junk modcb expcb e a0 req ca ckl iss
        req2 req'' ha hbit hgrd hca hg hs]

/-- Witness for C10: on `ctx10` the SSA stage fails (bad signature byte),
yet the CA key remains stored and the flag is false. -/
theorem authenticate_retains_keys_on_failure_witness :
    ctx10.e_sda_ok = false ∧
    (emv_authenticate_static_data idT hashZ junk0 mod36 exp3 ctx10).2.e_ca_pk
      = some caK36 :=
  ⟨by decide,
    (authenticate_retains_keys_on_failure idT hashZ junk0 mod36 exp3 ctx10
      0x40 req10 caK36 36 (by decide) (by decide) (by decide) (by decide)
      (by decide)).1⟩

/-- C6: starting from an unauthenticated context, the flag ends up true
exactly when the run returned success; `emv_sda_ok` merely reads the
stored flag (it depends on nothing else of the context); and the pipeline
is fail-fast: an unsupported AIP, missing data, or a missing CA key
return the context completely untouched whatever the transform, hash,
scratch state or callbacks, and a failed certificate stage produces the
same failure for every SDA-relevant record list, i.e. the SSA stage never
runs. -/
theorem authenticate_fail_fast_flag (transform : RSATransform)
    (hash : HashFn) (junk : List Nat) (modcb expcb : KeyCb) (e : EmvCtx)
    (hinit : e.e_sda_ok = false) :
    ((emv_authenticate_static_data transform hash junk modcb expcb e).2.e_sda_ok
        = true ↔
      (emv_authenticate_static_data transform hash junk modcb expcb e).1 =
        .ok ()) ∧
    (emv_sda_ok
        (emv_authenticate_static_data transform hash junk modcb expcb e).2 =
      (emv_authenticate_static_data transform hash junk modcb expcb e).2.e_sda_ok) ∧
    (∀ e1 e2 : EmvCtx, e1.e_sda_ok = e2.e_sda_ok →
      emv_sda_ok e1 = emv_sda_ok e2) ∧
    (∀ a0, readByte e.e_aip 0 = .ok a0 → a0 &&& EMV_AIP_SDA = 0 →
      ∀ (t2 : RSATransform) (h2 : HashFn) (j2 : List Nat) (m2 x2 : KeyCb),
        emv_authenticate_static_data t2 h2 j2 m2 x2 e =
          (.err .UnsupportedMethod, e)) ∧
    (∀ a0, readByte e.e_aip 0 = .ok a0 → ¬ a0 &&& EMV_AIP_SDA = 0 →
      get_required_data e = none →
      ∀ (t2 : RSATransform) (h2 : HashFn) (j2 : List Nat) (m2 x2 : KeyCb),
        emv_authenticate_static_data t2 h2 j2 m2 x2 e =
          (.err .DataMissing, e)) ∧
    (∀ a0 req, readByte e.e_aip 0 = .ok a0 → ¬ a0 &&& EMV_AIP_SDA = 0 →
      get_required_data e = some req →
      get_ca_key req.ca_pk_idx modcb expcb = none →
      ∀ (t2 : RSATransform) (h2 : HashFn) (j2 : List Nat),
        emv_authenticate_static_data t2 h2 j2 modcb expcb e =
          (.err .KeyNotFound, e)) ∧
    (∀ a0 req ca ckl er req2, readByte e.e_aip 0 = .ok a0 →
      ¬ a0 &&& EMV_AIP_SDA = 0 → get_required_data e = some req →
      get_ca_key req.ca_pk_idx modcb expcb = some (ca, ckl) →
      get_issuer_pk transform hash junk req ca ckl = (.err er, req2) →
      ∀ recs : List (List Nat),
        (emv_authenticate_static_data transform hash junk modcb expcb
            { e with db_sda := recs }).1 = .err er) := by
  refine ⟨?_, rfl, fun e1 e2 h12 => h12, ?_, ?_, ?_, ?_⟩
  · rcases auth_flag_cases transform hash junk modcb expcb e with
      ⟨hok, hflag⟩ | ⟨hne, hflag⟩
    · rw [hok, hflag]
      simp
    · rw [hflag, hinit]
      simp only [Bool.false_eq_true, false_iff]
      exact hne
  · intro a0 ha hbit t2 h2 j2 m2 x2
    exact auth_unsupported t2 h2 j2 m2 x2 e a0 ha hbit
  · intro a0 ha hbit hgrd t2 h2 j2 m2 x2
    exact auth_data_missing t2 h2 j2 m2 x2 e a0 ha hbit hgrd
  · intro a0 req ha hbit hgrd hca t2 h2 j2
    exact auth_key_not_found t2 h2 j2 modcb expcb e a0 req ha hbit hgrd hca
  · intro a0 req ca ckl er req2 ha hbit hgrd hca hg recs
    have ha2 : readByte ({ e with db_sda := recs } : EmvCtx).e_aip 0 =
        .ok a0 := ha
    have hgrd2 : get_required_data { e with db_sda := recs } = some req :=
      hgrd
    rw [auth_iss_err transform hash junk modcb expcb
      { e with db_sda := recs } a0 req ca ckl er req2 ha2 hbit hgrd2 hca hg]

/-- Witness for C6 at the fully successful fixture. -/
theorem authenticate_fail_fast_flag_witness :
    ctx0.e_sda_ok = false ∧
    ((emv_authenticate_static_data idT hashZ junk0 mod36 exp3 ctx0).2.e_sda_ok
        = true ↔
      (emv_authenticate_static_data idT hashZ junk0 mod36 exp3 ctx0).1 =
        .ok ()) :=
  ⟨by decide,
    (authenticate_fail_fast_flag idT hashZ junk0 mod36 exp3 ctx0
      (by decide)).1⟩

/-- C2 counterexample: a successful authentication run rewrites the
tag-store-owned issuer-certificate record in place with the recovered
bytes, so the record differs afterwards — the claim that the records are
identical after every attempt is false on the code. -/
theorem tag_store_mutation_counterexample :
    (emv_authenticate_static_data tC2 hashZ junk0 mod36 exp3 ctxC2).1 =
      .ok () ∧
    (emv_authenticate_static_data tC2 hashZ junk0 mod36 exp3 ctxC2).2.tag_pk_cert
      ≠ ctxC2.tag_pk_cert := by decide

/-- C2 amended: each RSA recovery writes into a private scratch buffer,
but on success the wrapper copies the recovered bytes back *into the
aliased tag-store record* (certificate and SSA data); only when recovery
fails — or the stage is never reached — is the record left unchanged.
The PK-remainder and PK-exponent records are never written. -/
theorem recover_in_place_writeback (transform : RSATransform)
    (hash : HashFn) (junk : List Nat) (modcb expcb : KeyCb) (e : EmvCtx)
    (a0 : Nat) (req : SDAReq) (ca : RSAKey) (ckl : Nat)
    (ha : readByte e.e_aip 0 = .ok a0) (hbit : ¬ a0 &&& EMV_AIP_SDA = 0)
    (hgrd : get_required_data e = some req)
    (hca : get_ca_key req.ca_pk_idx modcb expcb = some (ca, ckl))
    (hlen : req.pk_cert.length = ckl) :
    ((recover transform ca req.pk_cert).1 = true →
      (emv_authenticate_static_data transform hash junk modcb expcb e).2.tag_pk_cert
        = some (recover transform ca req.pk_cert).2) ∧
    ((recover transform ca req.pk_cert).1 = false →
      (emv_authenticate_static_data transform hash junk modcb expcb e).2.tag_pk_cert
        = some req.pk_cert) ∧
    (∀ iss req2,
      get_issuer_pk transform hash junk req ca ckl = (.ok iss, req2) →
      (recover transform iss req2.ssa_data).1 = true →
      (emv_authenticate_static_data transform hash junk modcb expcb e).2.tag_ssa
        = some (recover transform iss req2.ssa_data).2) ∧
    ((emv_authenticate_static_data transform hash junk modcb expcb e).2.tag_pk_r
        = e.tag_pk_r ∧
      (emv_authenticate_static_data transform hash junk modcb expcb e).2.tag_pk_exp
        = e.tag_pk_exp) := by
  refine ⟨?_, ?_, ?_, auth_preserves_r_exp transform hash junk modcb expcb e⟩
  · intro htrue
    have hrec : recover transform ca req.pk_cert =
        (true, (recover transform ca req.pk_cert).2) := by
      rw [← htrue]
    rw [auth_tag_cert transform hash junk modcb expcb e a0 req ca ckl ha
      hbit hgrd hca,
      get_issuer_pk_snd_rec_ok transform hash junk req ca ckl _ hlen hrec]
  · intro hfalse
    have hsnd : (recover transform ca req.pk_cert).2 = req.pk_cert :=
      recover_false_frame hfalse
    have hrec : recover transform ca req.pk_cert = (false, req.pk_cert) :=
      Prod.ext hfalse hsnd
    rw [auth_tag_cert transform hash junk modcb expcb e a0 req ca ckl ha
      hbit hgrd hca,
      get_issuer_pk_rec_fail transform hash junk req ca ckl req.pk_cert hlen
        hrec]
  · intro iss req2 hg htrue
    have hrec : recover transform iss req2.ssa_data =
        (true, (recover transform iss req2.ssa_data).2) := by
      rw [← htrue]
    rw [auth_tag_ssa transform hash junk modcb expcb e a0 req ca ckl iss
      req2 ha hbit hgrd hca hg,
      verify_ssa_data_snd transform hash e.db_sda req2 iss e.e_aip _ hrec]

/-- Witness for the amended C2: the `ctxC2` run overwrites the stored
certificate record with its recovered form. -/
theorem recover_in_place_writeback_witness :
    (recover tC2 caK36 reqC2.pk_cert).1 = true ∧
    (emv_authenticate_static_data tC2 hashZ junk0 mod36 exp3 ctxC2).2.tag_pk_cert
      = some (recover tC2 caK36 reqC2.pk_cert).2 :=
  ⟨by decide,
    (recover_in_place_writeback tC2 hashZ junk0 mod36 exp3 ctxC2 0x40 reqC2
      caK36 36 (by decide) (by decide) (by decide) (by decide)
      (by decide)).1 (by decide)⟩

/-- C3 (code defect): a 36-byte certificate with an empty PK remainder
passes validation, yet the issuer modulus handed to `BN_bin2bn` consists
of `pk_cert_len` scratch-buffer bytes of which only
`(len - 36) + pk_r_len` were ever written: the resulting modulus is the
uninitialised allocation, not the claimed concatenation (here empty), and
it varies with the heap contents. -/
theorem make_issuer_pk_uninitialized_tail :
    check_pk_cert hashZ reqC3 = .ok () ∧
    make_issuer_pk (List.replicate 36 7) reqC3 =
      .ok { n := List.replicate 36 7, e := [3] } ∧
    make_issuer_pk junk0 reqC3 =
      .ok { n := List.replicate 36 0, e := [3] } ∧
    (reqC3.pk_cert.drop 15).take (reqC3.pk_cert.length - 36) ++ reqC3.pk_r
      = ([] : List Nat) := by decide

end EmvSda
